import Mathlib

/-!
Shallow embedding of `src/main.rs` of the window.velocity application.

The program treats the OS window as a 2D rigid body.  The embedding models the
floating-point (`Real = f32`) values of the source as exact rationals, the
two-component vector types of the source (`LogicalPosition`, `LogicalSize`,
`Point<Real>`, `Vector<Real>`) as a single pair type `Pt`, and each bevy system
as a pure function from its inputs (resources, queried components, events) to
the writes it performs.
-/

namespace WindowVelocity

/-- A two-component vector over exact rationals, standing in for the source's
`LogicalPosition<Real>`, `LogicalSize<Real>`, `Point<Real>` and `Vector<Real>`
(all pairs of `f32`). -/
structure Pt where
  x : ℚ
  y : ℚ
deriving DecidableEq, Repr

instance : Add Pt := ⟨fun a b => ⟨a.x + b.x, a.y + b.y⟩⟩

instance : Sub Pt := ⟨fun a b => ⟨a.x - b.x, a.y - b.y⟩⟩

instance : Neg Pt := ⟨fun a => ⟨-a.x, -a.y⟩⟩

/-- Scalar multiple of a vector (the source's `vector * scalar`). -/
def Pt.smul (k : ℚ) (p : Pt) : Pt := ⟨k * p.x, k * p.y⟩

/-- 2D cross product `a.x * b.y - a.y * b.x` (nalgebra's `perp`/`gcross`). -/
def Pt.cross (a b : Pt) : ℚ := a.x * b.y - a.y * b.x

/-- `struct CoordConverter { monitor_height: Real, physics_scale: Real }`
(src/main.rs lines 40-44). -/
structure CoordConverter where
  monitor_height : ℚ
  physics_scale : ℚ
deriving DecidableEq, Repr

/-- `CoordConverter::flip` (src/main.rs lines 47-50): reflect the vertical
coordinate across the monitor height. -/
def CoordConverter.flip (c : CoordConverter) (p : Pt) : Pt :=
  ⟨p.x, c.monitor_height - p.y⟩

/-- `CoordConverter::to_physics_vec` (src/main.rs lines 57-59): divide a
logical size by the physics scale. -/
def CoordConverter.to_physics_vec (c : CoordConverter) (p : Pt) : Pt :=
  ⟨p.x / c.physics_scale, p.y / c.physics_scale⟩

/-- `CoordConverter::to_physics_point` (src/main.rs lines 52-55): flip, then
divide by the physics scale. -/
def CoordConverter.to_physics_point (c : CoordConverter) (p : Pt) : Pt :=
  c.to_physics_vec (c.flip p)

/-- `CoordConverter::to_logical_size` (src/main.rs lines 65-67): multiply a
physics vector by the physics scale. -/
def CoordConverter.to_logical_size (c : CoordConverter) (v : Pt) : Pt :=
  ⟨v.x * c.physics_scale, v.y * c.physics_scale⟩

/-- `CoordConverter::to_logical_winit_position` (src/main.rs lines 61-63):
multiply by the physics scale, then flip.  This is the spec's
`to_logical_window_position`. -/
def CoordConverter.to_logical_winit_position (c : CoordConverter) (v : Pt) : Pt :=
  c.flip (c.to_logical_size v)

/-- `CoordConverter::from_bevy_winit` (src/main.rs lines 69-71): flip only, no
scaling.  This is the spec's `from_pointer`. -/
def CoordConverter.from_bevy_winit (c : CoordConverter) (v : Pt) : Pt :=
  c.flip v

/-- `enum Window { Bouncing, Dragging(LogicalPosition<Real>), Static }`
(src/main.rs lines 24-29). -/
inductive Window where
  | Bouncing
  | Dragging (origin : Pt)
  | Static
deriving DecidableEq, Repr

/-- The two rapier body types the program uses (src/main.rs lines 297-300). -/
inductive RigidBodyType where
  | Dynamic
  | KinematicPositionBased
deriving DecidableEq, Repr

/-- One part of a compound collider: a halfspace with the given outward unit
`normal`, positioned by an isometry whose translation is `translation` (the
rotation angle is always `0.0` in the source). -/
structure HalfspacePart where
  translation : Pt
  normal : Pt
deriving DecidableEq, Repr

/-- `fn box_collider([hx, hy]: [Real; 2]) -> ColliderShape`
(src/main.rs lines 8-20): a compound of four halfspaces, one per direction in
`[[1,0],[0,1],[-1,0],[0,-1]]`, each placed at
`Isometry::new(-v.component_mul([hx, hy]), 0.0)` with normal `v`. -/
def box_collider (h : Pt) : List HalfspacePart :=
  [Pt.mk 1 0, Pt.mk 0 1, Pt.mk (-1) 0, Pt.mk 0 (-1)].map
    (fun v => { translation := ⟨-(v.x * h.x), -(v.y * h.y)⟩, normal := v })

/-- A `WindowResized` event carrying the new logical width and height. -/
structure WindowResized where
  width : ℚ
  height : ℚ
deriving DecidableEq, Repr

/-- The body of the `for event in resized_events.iter()` loop of
`resize_update` (src/main.rs lines 312-316): replace the walls collider with a
`box_collider` of half the physics-space event dimensions. -/
def resize_step (c : CoordConverter) (_shape : List HalfspacePart)
    (e : WindowResized) : List HalfspacePart :=
  let new_dims := c.to_physics_vec ⟨e.width, e.height⟩
  box_collider ⟨new_dims.x / 2, new_dims.y / 2⟩

/-- `fn resize_update` (src/main.rs lines 306-317): fold the loop body over the
events read this tick, starting from the current walls collider shape. -/
def resize_update (c : CoordConverter) (shape : List HalfspacePart)
    (events : List WindowResized) : List HalfspacePart :=
  events.foldl (resize_step c) shape

/-- The writes performed by one run of `update_physics_or_application_window`:
an optional write to the physics body's `next_position`, and an optional
`set_outer_position` command to the OS window (logical coordinates). -/
structure SyncResult where
  next_position : Option Pt
  set_outer_position : Option Pt
deriving DecidableEq, Repr

/-- The `offset` local of `update_physics_or_application_window`
(src/main.rs lines 264-268): `Vector::from([size[0], -size[1]]) / 2.` where
`size` is the physics-space outer size. -/
def sync_offset (c : CoordConverter) (outer_size : Pt) : Pt :=
  let size := c.to_physics_vec outer_size
  ⟨size.x / 2, -size.y / 2⟩

/-- `fn update_physics_or_application_window` (src/main.rs lines 252-291):
`Bouncing` commands the OS window to `to_logical_winit_position(center -
offset)`; `Static` writes `to_physics_point(inner_position) + offset` as the
body's next position; `Dragging` writes nothing. -/
def update_physics_or_application_window (c : CoordConverter) (st : Window)
    (outer_size inner_position body_center : Pt) : SyncResult :=
  let offset := sync_offset c outer_size
  match st with
  | .Bouncing =>
      { next_position := none
        set_outer_position :=
          some (c.to_logical_winit_position (body_center - offset)) }
  | .Static =>
      { next_position := some (c.to_physics_point inner_position + offset)
        set_outer_position := none }
  | .Dragging _ => { next_position := none, set_outer_position := none }

/-- `fn window_physics_type_update` (src/main.rs lines 293-303): the body type
written when the `Window` component changed. -/
def window_physics_type_update : Window → RigidBodyType
  | .Bouncing => .Dynamic
  | .Static | .Dragging _ => .KinematicPositionBased

/-- `fn toggle_physics_on_spacebar` (src/main.rs lines 319-327): the state
written when Space was just pressed. -/
def toggle_physics_on_spacebar : Window → Window
  | .Static | .Dragging _ => .Bouncing
  | .Bouncing => .Static

/-- `fn clicking_freezes_window` (src/main.rs lines 329-344): on a left-button
press, if the cursor position is available the state becomes
`Dragging(from_bevy_winit(cursor))`; otherwise only a debug message is logged
and the state is left unchanged. -/
def clicking_freezes_window (c : CoordConverter) (st : Window)
    (cursor : Option Pt) : Window :=
  match cursor with
  | some p => .Dragging (c.from_bevy_winit p)
  | none => st

/-- The linear and angular velocity of a rigid body (rapier's
`RigidBodyVelocity`). -/
structure RigidBodyVelocity where
  linvel : Pt
  angvel : ℚ
deriving DecidableEq, Repr

/-- The mass properties the impulse call reads: effective inverse mass,
effective inverse principal angular inertia (zero when
`RigidBodyMassPropsFlags::ROTATION_LOCKED` is set, as it is for the window
body, src/main.rs line 124), and the world-space center of mass. -/
structure RigidBodyMassProps where
  inv_mass : ℚ
  inv_principal_inertia : ℚ
  world_com : Pt
deriving DecidableEq, Repr

/-- Semantics of the external rapier call
`RigidBodyVelocity::apply_impulse_at_point(mprops, impulse, point)`: the linear
velocity gains `impulse * inv_mass` and the angular velocity gains the inverse
inertia times the 2D cross product of `point - world_com` with the impulse. -/
def apply_impulse_at_point (mp : RigidBodyMassProps) (impulse point : Pt)
    (v : RigidBodyVelocity) : RigidBodyVelocity :=
  { linvel := v.linvel + Pt.smul mp.inv_mass impulse
    angvel := v.angvel +
      mp.inv_principal_inertia * Pt.cross (point - mp.world_com) impulse }

/-- The impulse argument of the `apply_impulse_at_point` call in
`dragging_flings_window` (src/main.rs lines 362-364): `(curr - prev) * 2.0`
where `prev = to_physics_point(origin)` and
`curr = to_physics_point(from_bevy_winit(cursor))`. -/
def launch_impulse (c : CoordConverter) (prev curr : Pt) : Pt :=
  Pt.smul 2 (c.to_physics_point (c.from_bevy_winit curr) - c.to_physics_point prev)

/-- `fn dragging_flings_window` (src/main.rs lines 346-370): on a left-button
release while `Dragging(prev)`, the state becomes `Bouncing`; if the cursor is
available the launch impulse is applied to the body's velocity at the physics
point of `prev`, otherwise a debug message is logged and the velocity is left
alone.  In any other state nothing happens. -/
def dragging_flings_window (c : CoordConverter) (st : Window)
    (cursor : Option Pt) (vel : RigidBodyVelocity) (mp : RigidBodyMassProps) :
    Window × RigidBodyVelocity :=
  match st with
  | .Dragging prev =>
    match cursor with
    | some curr =>
        (.Bouncing,
          apply_impulse_at_point mp (launch_impulse c prev curr)
            (c.to_physics_point prev) vel)
    | none => (.Bouncing, vel)
  | _ => (st, vel)

theorem Pt_sub (a b : Pt) : a - b = ⟨a.x - b.x, a.y - b.y⟩ := rfl

/-- Claim C1, counterexample: at monitor height 400 and the program's physics
scale 1500, releasing a drag from `Dragging(origin=(100,350))` with the cursor
at `(100,250)` does yield `Bouncing`, but the launch impulse the code computes
is `(0, 4/15)`, not the claimed `2.0 * (0, 100/1500) = (0, 2/15)`. -/
theorem claim_C1_counterexample :
    (dragging_flings_window ⟨400, 1500⟩ (.Dragging ⟨100, 350⟩) (some ⟨100, 250⟩)
        ⟨⟨0, 0⟩, 0⟩ ⟨1, 0, ⟨0, 0⟩⟩).1 = Window.Bouncing
    ∧ launch_impulse ⟨400, 1500⟩ ⟨100, 350⟩ ⟨100, 250⟩ ≠ Pt.smul 2 ⟨0, 100 / 1500⟩ := by
  refine ⟨rfl, ?_⟩
  simp only [launch_impulse, CoordConverter.to_physics_point,
    CoordConverter.to_physics_vec, CoordConverter.from_bevy_winit,
    CoordConverter.flip, Pt.smul, Pt_sub, ne_eq, Pt.mk.injEq, not_and]
  norm_num

/-- Claim C1, amended: in the same scenario with an arbitrary positive physics
scale `s`, the state becomes `Bouncing` and the impulse is
`(0, 400/s) = 2.0 * (0, 200/s)` — zero horizontal component, positive vertical
component — because the current cursor is flipped by `from_bevy_winit` before
`to_physics_point` flips it again (the two flips cancel), while the stored
origin's flip is undone by `to_physics_point`; the impulse is applied at the
origin's physics point, which with rotation locked (inverse principal inertia
zero) adds exactly `impulse * inv_mass` to the linear velocity and leaves the
angular velocity unchanged, the same effect as a center-of-mass impulse. -/
theorem claim_C1_amended (s : ℚ) (vel : RigidBodyVelocity)
    (mp : RigidBodyMassProps) (hs : 0 < s) (hrot : mp.inv_principal_inertia = 0) :
    (dragging_flings_window ⟨400, s⟩ (.Dragging ⟨100, 350⟩) (some ⟨100, 250⟩)
        vel mp).1 = Window.Bouncing
    ∧ launch_impulse ⟨400, s⟩ ⟨100, 350⟩ ⟨100, 250⟩ = ⟨0, 400 / s⟩
    ∧ launch_impulse ⟨400, s⟩ ⟨100, 350⟩ ⟨100, 250⟩ = Pt.smul 2 ⟨0, 200 / s⟩
    ∧ 0 < (400 : ℚ) / s
    ∧ (dragging_flings_window ⟨400, s⟩ (.Dragging ⟨100, 350⟩) (some ⟨100, 250⟩)
        vel mp).2
        = ⟨vel.linvel + Pt.smul mp.inv_mass ⟨0, 400 / s⟩, vel.angvel⟩ := by
  have himp : launch_impulse ⟨400, s⟩ ⟨100, 350⟩ ⟨100, 250⟩ = ⟨0, 400 / s⟩ := by
    simp only [launch_impulse, CoordConverter.to_physics_point,
      CoordConverter.to_physics_vec, CoordConverter.from_bevy_winit,
      CoordConverter.flip, Pt.smul, Pt_sub, Pt.mk.injEq]
    constructor <;> ring
  refine ⟨rfl, himp, ?_, by positivity, ?_⟩
  · rw [himp]
    simp only [Pt.smul, Pt.mk.injEq]
    constructor <;> ring
  · simp only [dragging_flings_window, apply_impulse_at_point, himp, hrot,
      zero_mul, add_zero]

/-- Claim C1, witness for the amended theorem at scale 1500 with unit inverse
mass, zero inverse inertia and zero initial velocity. -/
theorem claim_C1_witness :
    (0 : ℚ) < 1500
    ∧ (RigidBodyMassProps.mk 1 0 ⟨0, 0⟩).inv_principal_inertia = 0
    ∧ ((dragging_flings_window ⟨400, 1500⟩ (.Dragging ⟨100, 350⟩)
          (some ⟨100, 250⟩) ⟨⟨0, 0⟩, 0⟩ ⟨1, 0, ⟨0, 0⟩⟩).1 = Window.Bouncing
      ∧ launch_impulse ⟨400, 1500⟩ ⟨100, 350⟩ ⟨100, 250⟩ = ⟨0, 400 / 1500⟩
      ∧ launch_impulse ⟨400, 1500⟩ ⟨100, 350⟩ ⟨100, 250⟩ = Pt.smul 2 ⟨0, 200 / 1500⟩
      ∧ 0 < (400 : ℚ) / 1500
      ∧ (dragging_flings_window ⟨400, 1500⟩ (.Dragging ⟨100, 350⟩)
          (some ⟨100, 250⟩) ⟨⟨0, 0⟩, 0⟩ ⟨1, 0, ⟨0, 0⟩⟩).2
          = ⟨(⟨0, 0⟩ : Pt) + Pt.smul 1 ⟨0, 400 / 1500⟩, 0⟩) :=
  ⟨by norm_num, rfl,
    claim_C1_amended 1500 ⟨⟨0, 0⟩, 0⟩ ⟨1, 0, ⟨0, 0⟩⟩ (by norm_num) rfl⟩

/-- Claim C2: in every synchronization tick the offset is
`(outer_width/(2*scale), -outer_height/(2*scale))`; in `Static` the body's next
position is set to `to_physics_point(inner position) + offset`; in `Bouncing`
the OS window is commanded to `to_logical_winit_position(center - offset)`; in
`Dragging` neither write happens; and converting the commanded logical position
back gives exactly `center - offset`, so `center = top_left_physics + offset`
holds in both driving directions. -/
theorem claim_C2_sync (c : CoordConverter) (outer inner center p : Pt)
    (hs : c.physics_scale ≠ 0) :
    sync_offset c outer
        = ⟨outer.x / (2 * c.physics_scale), -(outer.y / (2 * c.physics_scale))⟩
    ∧ update_physics_or_application_window c .Static outer inner center
        = ⟨some (c.to_physics_point inner + sync_offset c outer), none⟩
    ∧ update_physics_or_application_window c .Bouncing outer inner center
        = ⟨none, some (c.to_logical_winit_position (center - sync_offset c outer))⟩
    ∧ update_physics_or_application_window c (.Dragging p) outer inner center
        = ⟨none, none⟩
    ∧ c.to_physics_point
          (c.to_logical_winit_position (center - sync_offset c outer))
        = center - sync_offset c outer := by
  refine ⟨?_, rfl, rfl, rfl, ?_⟩
  · simp only [sync_offset, CoordConverter.to_physics_vec, Pt.mk.injEq]
    constructor <;> ring
  · generalize center - sync_offset c outer = v
    obtain ⟨vx, vy⟩ := v
    simp only [CoordConverter.to_physics_point,
      CoordConverter.to_logical_winit_position, CoordConverter.to_logical_size,
      CoordConverter.to_physics_vec, CoordConverter.flip, Pt.mk.injEq]
    constructor <;> field_simp

/-- Claim C2, witness at monitor height 400, scale 1500, outer size
`(600,400)`, inner position `(10,20)`, body center `(1,2)`. -/
theorem claim_C2_witness :
    (CoordConverter.mk 400 1500).physics_scale ≠ 0
    ∧ (sync_offset ⟨400, 1500⟩ ⟨600, 400⟩
          = ⟨(Pt.mk 600 400).x / (2 * (CoordConverter.mk 400 1500).physics_scale),
             -((Pt.mk 600 400).y / (2 * (CoordConverter.mk 400 1500).physics_scale))⟩
      ∧ update_physics_or_application_window ⟨400, 1500⟩ .Static ⟨600, 400⟩ ⟨10, 20⟩ ⟨1, 2⟩
          = ⟨some ((CoordConverter.mk 400 1500).to_physics_point ⟨10, 20⟩
              + sync_offset ⟨400, 1500⟩ ⟨600, 400⟩), none⟩
      ∧ update_physics_or_application_window ⟨400, 1500⟩ .Bouncing ⟨600, 400⟩ ⟨10, 20⟩ ⟨1, 2⟩
          = ⟨none, some ((CoordConverter.mk 400 1500).to_logical_winit_position
              (⟨1, 2⟩ - sync_offset ⟨400, 1500⟩ ⟨600, 400⟩))⟩
      ∧ update_physics_or_application_window ⟨400, 1500⟩ (.Dragging ⟨5, 6⟩) ⟨600, 400⟩ ⟨10, 20⟩ ⟨1, 2⟩
          = ⟨none, none⟩
      ∧ (CoordConverter.mk 400 1500).to_physics_point
            ((CoordConverter.mk 400 1500).to_logical_winit_position
              (⟨1, 2⟩ - sync_offset ⟨400, 1500⟩ ⟨600, 400⟩))
          = ⟨1, 2⟩ - sync_offset ⟨400, 1500⟩ ⟨600, 400⟩) :=
  ⟨by norm_num, claim_C2_sync ⟨400, 1500⟩ ⟨600, 400⟩ ⟨10, 20⟩ ⟨1, 2⟩ ⟨5, 6⟩ (by norm_num)⟩

/-- Claim C3: over exact rational arithmetic, with positive monitor height and
nonzero physics scale, `to_logical_winit_position` undoes `to_physics_point`
exactly for any point within the monitor's logical bounds. -/
theorem claim_C3_roundtrip (c : CoordConverter) (p : Pt)
    (hH : 0 < c.monitor_height) (hs : c.physics_scale ≠ 0)
    (hy0 : 0 ≤ p.y) (hy1 : p.y ≤ c.monitor_height) :
    c.to_logical_winit_position (c.to_physics_point p) = p := by
  obtain ⟨px, py⟩ := p
  simp only [CoordConverter.to_physics_point, CoordConverter.to_physics_vec,
    CoordConverter.to_logical_winit_position, CoordConverter.to_logical_size,
    CoordConverter.flip, Pt.mk.injEq]
  constructor <;> field_simp

/-- Claim C3, witness at monitor height 400, scale 1500, point `(100,50)`. -/
theorem claim_C3_witness :
    0 < (CoordConverter.mk 400 1500).monitor_height
    ∧ (CoordConverter.mk 400 1500).physics_scale ≠ 0
    ∧ 0 ≤ (Pt.mk 100 50).y
    ∧ (Pt.mk 100 50).y ≤ (CoordConverter.mk 400 1500).monitor_height
    ∧ (CoordConverter.mk 400 1500).to_logical_winit_position
        ((CoordConverter.mk 400 1500).to_physics_point ⟨100, 50⟩) = ⟨100, 50⟩ :=
  ⟨by norm_num, by norm_num, by norm_num, by norm_num,
    claim_C3_roundtrip ⟨400, 1500⟩ ⟨100, 50⟩ (by norm_num) (by norm_num)
      (by norm_num) (by norm_num)⟩

/-- Claim C4: `box_collider (hx, hy)` is a compound of exactly four halfspace
parts whose unit normals are `+X`, `+Y`, `-X`, `-Y`, each plane displaced from
the body center by the corresponding half-extent along its own normal axis
(translation `-(normal.x * hx, normal.y * hy)`); and after any resize event
with width `w` and height `h` the walls collider is rebuilt as the
`box_collider` with half-extents `(w, h) / (2 * scale)` exactly. -/
theorem claim_C4_boundary (hx hy w h : ℚ) (c : CoordConverter)
    (shape : List HalfspacePart) (events : List WindowResized) :
    box_collider ⟨hx, hy⟩ =
      [⟨⟨-hx, 0⟩, ⟨1, 0⟩⟩, ⟨⟨0, -hy⟩, ⟨0, 1⟩⟩, ⟨⟨hx, 0⟩, ⟨-1, 0⟩⟩, ⟨⟨0, hy⟩, ⟨0, -1⟩⟩]
    ∧ (box_collider ⟨hx, hy⟩).length = 4
    ∧ resize_update c shape (events ++ [⟨w, h⟩])
        = box_collider ⟨w / (2 * c.physics_scale), h / (2 * c.physics_scale)⟩ := by
  refine ⟨?_, rfl, ?_⟩
  · simp [box_collider]
  · have hw : w / c.physics_scale / 2 = w / (2 * c.physics_scale) := by
      rw [div_div, mul_comm]
    have hh : h / c.physics_scale / 2 = h / (2 * c.physics_scale) := by
      rw [div_div, mul_comm]
    simp only [resize_update, List.foldl_append, List.foldl_cons, List.foldl_nil,
      resize_step, CoordConverter.to_physics_vec, hw, hh]

/-- Claim C5: from `Static`, Space yields `Bouncing` and a second Space yields
`Static` again (a 2-cycle), and the body type written on a state change is
`Dynamic` for `Bouncing` and `KinematicPositionBased` for `Static`. -/
theorem claim_C5_space_toggle :
    toggle_physics_on_spacebar .Static = .Bouncing
    ∧ toggle_physics_on_spacebar (toggle_physics_on_spacebar .Static) = .Static
    ∧ window_physics_type_update .Bouncing = .Dynamic
    ∧ window_physics_type_update .Static = .KinematicPositionBased :=
  ⟨rfl, rfl, rfl, rfl⟩

/-- Claim C6: from `Static` or `Bouncing`, a pointer press with the cursor
available at `cur` yields `Dragging(from_bevy_winit(cur))`, where
`from_bevy_winit` only flips the vertical coordinate (no scaling); in
particular cursor `(100,50)` with monitor height 400 yields
`Dragging((100,350))` for every physics scale `s`. -/
theorem claim_C6_press (c : CoordConverter) (st : Window) (cur : Pt) (s : ℚ)
    (h : st = Window.Static ∨ st = Window.Bouncing) :
    clicking_freezes_window c st (some cur) = .Dragging (c.from_bevy_winit cur)
    ∧ c.from_bevy_winit cur = ⟨cur.x, c.monitor_height - cur.y⟩
    ∧ clicking_freezes_window ⟨400, s⟩ st (some ⟨100, 50⟩) = .Dragging ⟨100, 350⟩ := by
  refine ⟨rfl, rfl, ?_⟩
  simp only [clicking_freezes_window, CoordConverter.from_bevy_winit,
    CoordConverter.flip, Window.Dragging.injEq, Pt.mk.injEq]
  norm_num

/-- Claim C6, witness in state `Static` at monitor height 400, scale 1500,
cursor `(100,50)`. -/
theorem claim_C6_witness :
    (Window.Static = Window.Static ∨ Window.Static = Window.Bouncing)
    ∧ (clicking_freezes_window ⟨400, 1500⟩ .Static (some ⟨100, 50⟩)
          = .Dragging ((CoordConverter.mk 400 1500).from_bevy_winit ⟨100, 50⟩)
      ∧ (CoordConverter.mk 400 1500).from_bevy_winit ⟨100, 50⟩
          = ⟨(Pt.mk 100 50).x,
             (CoordConverter.mk 400 1500).monitor_height - (Pt.mk 100 50).y⟩
      ∧ clicking_freezes_window ⟨400, 1500⟩ .Static (some ⟨100, 50⟩)
          = .Dragging ⟨100, 350⟩) :=
  ⟨Or.inl rfl, claim_C6_press ⟨400, 1500⟩ .Static ⟨100, 50⟩ 1500 (Or.inl rfl)⟩

/-- Claim C7: with the cursor position unavailable, a pointer press leaves the
state unchanged, and a pointer release while `Dragging` still advances the
state to `Bouncing` but leaves the body's velocity untouched. -/
theorem claim_C7_cursor_unavailable (c : CoordConverter) (st : Window) (p : Pt)
    (vel : RigidBodyVelocity) (mp : RigidBodyMassProps) :
    clicking_freezes_window c st none = st
    ∧ dragging_flings_window c (.Dragging p) none vel mp = (.Bouncing, vel) :=
  ⟨rfl, rfl⟩

/-- Claim C8: a Space press while `Dragging` transitions to `Bouncing`,
discarding the drag origin; the Space handler rewrites only the state, so no
impulse is involved. -/
theorem claim_C8_space_while_dragging (p : Pt) :
    toggle_physics_on_spacebar (.Dragging p) = .Bouncing :=
  rfl

/-- Claim C9: a pointer press with the cursor available overwrites the state
with a fresh `Dragging(from_bevy_winit(cursor))` from any state, including
while already `Dragging`. -/
theorem claim_C9_press_restarts_drag (c : CoordConverter) (q cur : Pt)
    (st : Window) :
    clicking_freezes_window c (.Dragging q) (some cur)
        = .Dragging (c.from_bevy_winit cur)
    ∧ clicking_freezes_window c st (some cur) = .Dragging (c.from_bevy_winit cur) :=
  ⟨rfl, rfl⟩

/-- Claim C10: a pointer release while `Static` or `Bouncing` changes neither
the state nor the body's velocity, regardless of cursor availability. -/
theorem claim_C10_release_noop (c : CoordConverter) (cursor : Option Pt)
    (vel : RigidBodyVelocity) (mp : RigidBodyMassProps) :
    dragging_flings_window c .Static cursor vel mp = (.Static, vel)
    ∧ dragging_flings_window c .Bouncing cursor vel mp = (.Bouncing, vel) :=
  ⟨rfl, rfl⟩

end WindowVelocity
